import Mathlib

/-!
# IMEX GROUP engine (`app.js`): cart, locale and modal core

A shallow embedding of the `CartController`, `ImexEngine` and `ModalEngine` code of `app.js`.

Modelling conventions.

* JavaScript numbers are exact rationals plus `NaN` (`JSNum`); IEEE-754 rounding and the
  infinities are not modelled.  A quantity is an `Int`.
* A property that reads as `undefined` is `none`.  The program only reads properties and
  serialises them, and `JSON.stringify` omits an absent property and one whose value is
  `undefined` alike, so the two are not told apart.
* An object literal inherits the members of `Object.prototype`; `objectPrototype` lists them,
  so that `db[id]` and `this.i18n[langCode]` see them as the platform does.
* `localStorage` is kept for the two keys the program uses.  The text under `imex_cart` is
  kept through what the platform's `JSON.parse` makes of it (`StoredText`).
* What is written to a display target is kept as the data it formats (`Content`).
-/

namespace Imex

/-! ## Platform values -/

/-- Errors the platform raises. -/
inductive JSError
  | SyntaxError
  | TypeError
  | ReferenceError
  deriving DecidableEq, Repr

/-- A JavaScript number: `NaN` or an exact rational. -/
inductive JSNum
  | nan
  | val (q : ℚ)
  deriving DecidableEq

namespace JSNum

/-- Addition of numbers; `NaN` absorbs. -/
def add : JSNum → JSNum → JSNum
  | val a, val b => val (a + b)
  | _, _ => nan

/-- Multiplication of numbers; `NaN` absorbs. -/
def mul : JSNum → JSNum → JSNum
  | val a, val b => val (a * b)
  | _, _ => nan

instance : Add JSNum := ⟨add⟩
instance : Mul JSNum := ⟨mul⟩
instance : Zero JSNum := ⟨val 0⟩

/-- The number a property value converts to in arithmetic: `undefined` gives `NaN`. -/
def ofProp : Option ℚ → JSNum
  | some q => val q
  | none => nan

/-- An integer as a number. -/
def ofInt (n : Int) : JSNum := val n

end JSNum

/-- `toUpperCase()` of the platform, on ASCII text: every string the program calls it on (a
category of the catalog, a language tag that passed the guard of `setLang`) is ASCII. -/
def toUpperCase (s : String) : String :=
  String.mk (s.data.map Char.toUpper)

/-- The members every object literal inherits from `Object.prototype`, each with what its
`name` property reads: the built-in functions report their own name, and `__proto__` reads as
`Object.prototype` itself, which has no `name`.  None of them has a `price`, `weight` or
`category` property. -/
def objectPrototype : List (String × Option String) :=
  [ ("constructor", some "Object"),
    ("__defineGetter__", some "__defineGetter__"),
    ("__defineSetter__", some "__defineSetter__"),
    ("hasOwnProperty", some "hasOwnProperty"),
    ("__lookupGetter__", some "__lookupGetter__"),
    ("__lookupSetter__", some "__lookupSetter__"),
    ("isPrototypeOf", some "isPrototypeOf"),
    ("propertyIsEnumerable", some "propertyIsEnumerable"),
    ("toString", some "toString"),
    ("valueOf", some "valueOf"),
    ("__proto__", none),
    ("toLocaleString", some "toLocaleString") ]

/-! ## Catalog -/

/-- What `getProductMock` returns, seen through the properties its callers read. -/
structure ProductData where
  name : Option String
  price : Option ℚ
  weight : Option ℚ
  category : Option String
  deriving DecidableEq

/-- The own properties of the `db` literal of `getProductMock`. -/
def db : List (String × ProductData) :=
  [ ("PX-001", ⟨some "Seamless Pipe ASTM", some 1450000, some 12.5, some "pipes"⟩),
    ("BM-442", ⟨some "H-Beam S355JR", some 9800000, some 45.0, some "structural"⟩),
    ("VL-099", ⟨some "Ball Valve PN40", some 3250000, some 8.2, some "tech"⟩) ]

/-- The fallback literal of `getProductMock`: it has no `category`. -/
def sentinel : ProductData := ⟨some "Industrial Asset", some 0, some 0, none⟩

/-- `getProductMock(id)`: `db[id] || sentinel`.  `db[id]` is an own property of `db`, or else
a member inherited from `Object.prototype`, which is an object or a function and so truthy,
or else `undefined`. -/
def getProductMock (id : String) : ProductData :=
  match db.lookup id with
  | some record => record
  | none =>
    match objectPrototype.lookup id with
    | some builtinName => ⟨builtinName, none, none, none⟩
    | none => sentinel

/-! ## Cart data -/

/-- An element of `this.items`, seen through the six properties the program reads. -/
structure LineItem where
  id : String
  name : Option String
  price : Option ℚ
  weightPerUnit : Option ℚ
  qty : Int
  category : Option String
  deriving DecidableEq

/-- The element a `find` callback selects and the code then mutates in place: the first
element satisfying `p` is replaced by `f` of it, every other element is kept. -/
def modifyFirst (p : LineItem → Bool) (f : LineItem → LineItem) : List LineItem → List LineItem
  | [] => []
  | x :: xs => if p x then f x :: xs else x :: modifyFirst p f xs

/-! ## JSON and `localStorage` -/

/-- A JSON document. -/
inductive JSON
  | null
  | bool (b : Bool)
  | num (q : ℚ)
  | str (s : String)
  | arr (elems : List JSON)
  | obj (props : List (String × JSON))

/-- The text stored under a key, kept through what `JSON.parse` makes of it: either the text
of a JSON document, or text that is not JSON. -/
inductive StoredText
  | json (v : JSON)
  | malformed (raw : String)

/-- The `localStorage` of the page, for the keys `imex_lang` and `imex_cart`; `none` is a key
that is not set (`getItem` returns `null`). -/
structure Storage where
  imex_lang : Option String
  imex_cart : Option StoredText

/-- `JSON.parse(localStorage.getItem(key))`: a `null` argument is converted to the text
`null`; text that is not JSON raises `SyntaxError`. -/
def JSON.parse : Option StoredText → Except JSError JSON
  | none => .ok .null
  | some (.json v) => .ok v
  | some (.malformed _) => .error .SyntaxError

/-- Truthiness of a parsed value, as `||` tests it. -/
def JSON.truthy : JSON → Bool
  | .null => false
  | .bool b => b
  | .num q => q != 0
  | .str s => s != ""
  | .arr _ => true
  | .obj _ => true

/-- Whether a value is `null`. -/
def JSON.isNull : JSON → Bool
  | .null => true
  | _ => false

/-- A property of an object as a member of `JSON.stringify` output: a property that is
`undefined` is left out. -/
def JSON.prop (key : String) : Option JSON → List (String × JSON)
  | some v => [(key, v)]
  | none => []

/-- `JSON.stringify` of one item: its properties in the order of the literal in `add`. -/
def LineItem.toJSON (item : LineItem) : JSON :=
  .obj ([("id", .str item.id)]
    ++ JSON.prop "name" (item.name.map .str)
    ++ JSON.prop "price" (item.price.map .num)
    ++ JSON.prop "weightPerUnit" (item.weightPerUnit.map .num)
    ++ [("qty", .num item.qty)]
    ++ JSON.prop "category" (item.category.map .str))

/-- `JSON.stringify(this.items)`. -/
def JSON.stringify (items : List LineItem) : StoredText :=
  .json (.arr (items.map LineItem.toJSON))

/-- Reading a string-valued property: `some none` when it is absent, `none` when it holds
something else than a string. -/
def JSON.readStr (props : List (String × JSON)) (key : String) : Option (Option String) :=
  match props.lookup key with
  | none => some none
  | some (.str s) => some (some s)
  | some _ => none

/-- Reading a number-valued property: `some none` when it is absent, `none` when it holds
something else than a number. -/
def JSON.readNum (props : List (String × JSON)) (key : String) : Option (Option ℚ) :=
  match props.lookup key with
  | none => some none
  | some (.num q) => some (some q)
  | some _ => none

/-- A parsed array element as a `LineItem`: an object whose `id` is a string, whose `qty` is
an integer and whose other four properties are absent or of their type.  Other elements are
outside the typed cart (`none`). -/
def JSON.asLineItem : JSON → Option LineItem
  | .obj props =>
    match props.lookup "id", props.lookup "qty", JSON.readStr props "name",
      JSON.readNum props "price", JSON.readNum props "weightPerUnit",
      JSON.readStr props "category" with
    | some (.str id), some (.num q), some name, some price, some weightPerUnit, some category =>
      if q.den = 1 then some ⟨id, name, price, weightPerUnit, q.num, category⟩ else none
    | _, _, _, _, _, _ => none
  | _ => none

/-- The elements of a parsed array as line items, when all of them are. -/
def JSON.asItems : List JSON → Option (List LineItem)
  | [] => some []
  | v :: vs =>
    match JSON.asLineItem v, JSON.asItems vs with
    | some item, some items => some (item :: items)
    | _, _ => none

/-! ## Display targets -/

/-- One rendered row of `renderItems`: the properties the template interpolates. -/
structure Row where
  name : Option String
  id : String
  weightPerUnit : Option ℚ
  qty : Int
  deriving DecidableEq

/-- What a display target shows. -/
inductive Content
  /-- the page markup, not yet written to -/
  | markup
  /-- `counter.textContent`: the sum of the quantities -/
  | count (n : Int)
  /-- `totalPrice.textContent`: the total, formatted, and the currency -/
  | price (total : JSNum) (currency : String)
  /-- `totalWeight.textContent`: the weight with two decimals and `kg` -/
  | weight (w : JSNum)
  /-- `mount.innerHTML`: the empty-state block -/
  | emptyState
  /-- `mount.innerHTML`: one block per item -/
  | rows (rs : List Row)
  deriving DecidableEq

/-- The handles `this.ui`; `none` is a handle `getElementById` did not find. -/
structure UI where
  counter : Option Content
  mount : Option Content
  totalPrice : Option Content
  totalWeight : Option Content
  deriving DecidableEq

/-! ## `ImexEngine` -/

/-- The `config` object of the engine. -/
structure Config where
  lang : String
  isLoaded : Bool
  currency : String
  steelWeightFactor : ℚ
  debug : Bool

/-- What `updateDOMTranslations` assigns to `el.textContent`: a string of the table, or a
member inherited from `Object.prototype` when the `data-t` key names one. -/
inductive Shown
  | text (s : String)
  | builtin (member : String)
  deriving DecidableEq

/-- The engine together with the page state it acts on: `storage` is `localStorage`,
`document` lists the `data-t` attribute of every element matching `[data-t]` in document
order, `pending` the text replacements scheduled by `updateDOMTranslations` (element position
and new text), `toasts` the toasts created by `notify` (message and type). -/
structure ImexEngine where
  version : String
  config : Config
  storage : Storage
  document : List String
  pending : List (Nat × Shown)
  toasts : List (String × String)

/-- The own properties of the `this.i18n` literal of `initLocalization`. -/
def i18n : List (String × List (String × String)) :=
  [ ("en",
      [ ("nav_home", "Home"),
        ("nav_catalog", "Catalog"),
        ("nav_projects", "Projects"),
        ("nav_about", "Company"),
        ("hero_badge", "UZBEKISTAN\x27S INDUSTRIAL LEADER"),
        ("hero_desc", "We provide a reliable foundation for the infrastructure of tomorrow. Global standards, local expertise."),
        ("btn_catalog", "Explore Catalog"),
        ("cat_title", "Industrial Arsenal"),
        ("cart_empty", "Your industrial inquiry list is empty."),
        ("loading_init", "SYSTEM INITIALIZING") ]),
    ("ru",
      [ ("nav_home", "Главная"),
        ("nav_catalog", "Каталог"),
        ("nav_projects", "Проекты"),
        ("nav_about", "Компания"),
        ("hero_badge", "ПРОМЫШЛЕННЫЙ ЛИДЕР УЗБЕКИСТАНА"),
        ("hero_desc", "Мы создаем надежный фундамент для инфраструктуры будущего. Мировые стандарты, локальный опыт."),
        ("btn_catalog", "Открыть каталог"),
        ("cat_title", "Промышленный Арсенал"),
        ("cart_empty", "Ваш список заказа пуст."),
        ("loading_init", "ИНИЦИАЛИЗАЦИЯ СИСТЕМЫ") ]),
    ("uz",
      [ ("nav_home", "Asosiy"),
        ("nav_catalog", "Katalog"),
        ("nav_projects", "Loyihalar"),
        ("nav_about", "Kompaniya"),
        ("hero_badge", "O\x27ZBEKISTON SANOAT YETAKCHISI"),
        ("hero_desc", "Biz ertangi kun infratuzilmasi uchun ishonchli poydevor yaratamiz. Global standartlar, mahalliy tajriba."),
        ("btn_catalog", "Katalogni ko\x27rish"),
        ("cat_title", "Sanoat Arsenali"),
        ("cart_empty", "Sizning buyurtma ro\x27yxatingiz bo\x27sh."),
        ("loading_init", "TIZIM YUKLANMOQDA") ]) ]

/-- `table[key]` for a table of `i18n`, when it is truthy: an own string (none is empty), or
a member inherited from `Object.prototype`. -/
def translate (table : List (String × String)) (key : String) : Option Shown :=
  match table.lookup key with
  | some s => if s != "" then some (.text s) else none
  | none =>
    match objectPrototype.lookup key with
    | some _ => some (.builtin key)
    | none => none

/-- `localStorage.getItem(key) || fallback` for a string-valued key: `null` and the empty
string are falsy. -/
def orDefault (stored : Option String) (fallback : String) : String :=
  match stored with
  | some s => if s != "" then s else fallback
  | none => fallback

/-- The fields the `ImexEngine` constructor sets, on a page with the given `localStorage` and
`[data-t]` elements.  The constructor then calls `init()`, whose first step is
`initLocalization`. -/
def ImexEngine.constructor (storage : Storage) (document : List String) : ImexEngine :=
  { version := "21.0.8"
    config :=
      { lang := orDefault storage.imex_lang "en"
        isLoaded := false
        currency := "UZS"
        steelWeightFactor := 7.85
        debug := false }
    storage := storage
    document := document
    pending := []
    toasts := [] }

/-- The outcome of `updateDOMTranslations`. -/
inductive Translation
  /-- an error is raised -/
  | raised (err : JSError)
  /-- the loop over the elements completes -/
  | done (engine : ImexEngine)
  /-- `this.i18n[this.config.lang]` is a member inherited from `Object.prototype`: what reading
  its properties gives is not followed -/
  | notFollowed

/-- `updateDOMTranslations()`: for every `[data-t]` element, `this.i18n[this.config.lang][key]`
is read, and when it is truthy the element text is scheduled to be replaced by it.  With no
such element the callback never runs.  When `this.i18n[this.config.lang]` is `undefined`,
reading `[key]` of it raises `TypeError` at the first element. -/
def ImexEngine.updateDOMTranslations (e : ImexEngine) : Translation :=
  match e.document with
  | [] => .done e
  | _ :: _ =>
    match i18n.lookup e.config.lang with
    | some table =>
      .done { e with
        pending := e.pending ++
          e.document.enum.filterMap (fun (n, key) => (translate table key).map (fun t => (n, t))) }
    | none =>
      match objectPrototype.lookup e.config.lang with
      | some _ => .notFollowed
      | none => .raised .TypeError

/-- `initLocalization()`: assigns the `i18n` literal and calls `updateDOMTranslations`. -/
def ImexEngine.initLocalization (e : ImexEngine) : Translation :=
  e.updateDOMTranslations

/-- `notify(message, type)`: a toast with that text and type is appended to the body. -/
def ImexEngine.notify (e : ImexEngine) (message : String) (type : String) : ImexEngine :=
  { e with toasts := e.toasts ++ [(message, type)] }

/-- The guard `this.i18n[langCode]` of `setLang`, as `if` tests it: a table of `i18n` is an
object, and a member inherited from `Object.prototype` is an object or a function; both are
truthy.  Any other key reads as `undefined`. -/
def ImexEngine.i18nTruthy (langCode : String) : Bool :=
  (i18n.lookup langCode).isSome || (objectPrototype.lookup langCode).isSome

/-- The two assignments of `setLang`: `this.config.lang = langCode` and
`localStorage.setItem(imex_lang, langCode)`. -/
def ImexEngine.assignLang (e : ImexEngine) (langCode : String) : ImexEngine :=
  { e with
    config := { e.config with lang := langCode }
    storage := { e.storage with imex_lang := some langCode } }

/-- `setLang(langCode)`: behind the guard, the two assignments, then
`updateDOMTranslations()`, then the toast. -/
def ImexEngine.setLang (e : ImexEngine) (langCode : String) : Translation :=
  if ImexEngine.i18nTruthy langCode then
    match (e.assignLang langCode).updateDOMTranslations with
    | .done e1 => .done (e1.notify ("Language changed to " ++ toUpperCase langCode) "info")
    | .raised err => .raised err
    | .notFollowed => .notFollowed
  else
    .done e

/-! ## `CartController` -/

/-- The cart controller: `core` is the engine it was given, with the page state. -/
structure CartController where
  core : ImexEngine
  items : List LineItem
  ui : UI

namespace CartController

/-- The accumulators `total` and `weight` of `calculateTotals` after its `forEach`. -/
def totals (items : List LineItem) : JSNum × JSNum :=
  items.foldl
    (fun acc item =>
      (acc.1 + JSNum.ofProp item.price * JSNum.ofInt item.qty,
       acc.2 + JSNum.ofProp item.weightPerUnit * JSNum.ofInt item.qty))
    (0, 0)

/-- `calculateTotals()`: the totals are written to the handles that exist. -/
def calculateTotals (c : CartController) : CartController :=
  let t := totals c.items
  { c with
    ui :=
      { c.ui with
        totalPrice := c.ui.totalPrice.map (fun _ => Content.price t.1 c.core.config.currency)
        totalWeight := c.ui.totalWeight.map (fun _ => Content.weight t.2) } }

/-- `updateUI()`: the counter, when it exists, shows the sum of the quantities; then
`calculateTotals()`.  The `pulse-anim` class it toggles is not kept. -/
def updateUI (c : CartController) : CartController :=
  calculateTotals
    { c with
      ui :=
        { c.ui with
          counter :=
            c.ui.counter.map (fun _ => Content.count (c.items.foldl (fun acc i => acc + i.qty) 0)) } }

/-- `sync()`: the items are stringified under `imex_cart`, then `updateUI()`. -/
def sync (c : CartController) : CartController :=
  updateUI
    { c with
      core := { c.core with storage := { c.core.storage with imex_cart := some (JSON.stringify c.items) } } }

/-- `renderItems()`: nothing without a mount; the empty-state block for no item; else one
block per item. -/
def renderItems (c : CartController) : CartController :=
  match c.ui.mount with
  | none => c
  | some _ =>
    if c.items.length = 0 then
      { c with ui := { c.ui with mount := some Content.emptyState } }
    else
      { c with
        ui :=
          { c.ui with
            mount :=
              some (Content.rows
                (c.items.map (fun item => ⟨item.name, item.id, item.weightPerUnit, item.qty⟩))) } }

/-- The text of a template string interpolating a property: `undefined` prints as such. -/
def interpolate : Option String → String
  | some s => s
  | none => "undefined"

/-- `add(productId)`. -/
def add (c : CartController) (productId : String) : CartController :=
  let productData := getProductMock productId
  let items :=
    match c.items.find? (fun item => item.id == productId) with
    | some _ =>
      modifyFirst (fun item => item.id == productId)
        (fun existing => { existing with qty := existing.qty + 1 }) c.items
    | none =>
      c.items ++
        [{ id := productId
           name := productData.name
           price := productData.price
           weightPerUnit := productData.weight
           qty := 1
           category := productData.category }]
  let c1 := sync { c with items := items }
  let c2 := { c1 with core := c1.core.notify (interpolate productData.name ++ " added to inquiry") "info" }
  renderItems c2

/-- `remove(productId)`. -/
def remove (c : CartController) (productId : String) : CartController :=
  renderItems (sync { c with items := c.items.filter (fun item => item.id != productId) })

/-- `updateQty(id, delta)`. -/
def updateQty (c : CartController) (id : String) (delta : Int) : CartController :=
  match c.items.find? (fun i => i.id == id) with
  | some _ =>
    renderItems
      (sync
        { c with
          items :=
            modifyFirst (fun i => i.id == id)
              (fun item => { item with qty := max 1 (item.qty + delta) }) c.items })
  | none => c

end CartController

/-- The outcome of `new CartController(parent)`. -/
inductive Constructed
  /-- an error is raised out of the constructor -/
  | raised (err : JSError)
  /-- the controller is built with a typed cart -/
  | ready (c : CartController)
  /-- `this.items` is an array with an element that is not a line item and not `null`: no
  error is raised, and the cart is outside the typed model -/
  | untyped (v : JSON)

/-- `new CartController(parent)` on a page with the handles `ui`:
`this.items = JSON.parse(localStorage.getItem(imex_cart)) || []`, then `updateUI()`.  The
parse is not guarded.  A truthy value that is not an array has no `forEach`, and reading a
property of a `null` element raises, both in `calculateTotals`. -/
def CartController.constructor (parent : ImexEngine) (ui : UI) : Constructed :=
  match JSON.parse parent.storage.imex_cart with
  | .error err => .raised err
  | .ok parsed =>
    match (if parsed.truthy then parsed else JSON.arr []) with
    | .arr elems =>
      if elems.any JSON.isNull then .raised .TypeError
      else
        match JSON.asItems elems with
        | some items => .ready (CartController.updateUI { core := parent, items := items, ui := ui })
        | none => .untyped (.arr elems)
    | _ => .raised .TypeError

/-! ## `ModalEngine` -/

/-- What `modal-content-mount` shows. -/
inductive ModalContent
  /-- the page markup, not yet written to -/
  | markup
  /-- the block `renderContent` writes: the tag is `data.category.toUpperCase()`, the heading
  `data.name`; `data.id` is `undefined` for every record `getProductMock` returns -/
  | specs (techTag : String) (name : Option String)
  deriving DecidableEq

/-- The modal engine with the page state it acts on: `modal` is the `tech-modal` element,
kept as whether its class list has `active`, and `mount` the `modal-content-mount` element
(`none`: `getElementById` found no such element); `bodyOverflow` is
`document.body.style.overflow`; `gsap` tells whether the page has loaded the `gsap` global;
`animations` lists the selectors passed to `gsap.from`. -/
structure ModalEngine where
  modal : Option Bool
  mount : Option ModalContent
  isOpen : Bool
  bodyOverflow : String
  gsap : Bool
  animations : List String
  deriving DecidableEq

/-- The outcome of a `ModalEngine` call: an error raised out of it, with the state reached
when it was raised, or normal completion. -/
inductive Opened
  | raised (err : JSError) (m : ModalEngine)
  | done (m : ModalEngine)
  deriving DecidableEq

/-- `new ModalEngine()` on a page with these two elements, body style and `gsap` global. -/
def ModalEngine.constructor (modal : Option Bool) (mount : Option ModalContent)
    (bodyOverflow : String) (gsap : Bool) : ModalEngine :=
  { modal := modal
    mount := mount
    isOpen := false
    bodyOverflow := bodyOverflow
    gsap := gsap
    animations := [] }

/-- `renderContent(data)`: the template is evaluated, then assigned to `this.mount.innerHTML`.
Calling `toUpperCase` on an `undefined` category raises `TypeError`, and so does the
assignment when there is no mount; in both cases nothing is written. -/
def ModalEngine.renderContent (m : ModalEngine) (data : ProductData) : Opened :=
  match data.category with
  | none => .raised .TypeError m
  | some category =>
    match m.mount with
    | none => .raised .TypeError m
    | some _ => .done { m with mount := some (.specs (toUpperCase category) data.name) }

/-- `animateBlueprint()`: `gsap.from(".bp-shape", ...)`; an undeclared `gsap` raises
`ReferenceError`. -/
def ModalEngine.animateBlueprint (m : ModalEngine) : Opened :=
  if m.gsap then .done { m with animations := m.animations ++ [".bp-shape"] }
  else .raised .ReferenceError m

/-- `open(productId)`: `renderContent` of the record of `getProductMock`, then the `active`
class, the body overflow and `isOpen`, then `animateBlueprint()`.  Nothing is guarded. -/
def ModalEngine.open (m : ModalEngine) (productId : String) : Opened :=
  match m.renderContent (getProductMock productId) with
  | .raised err m1 => .raised err m1
  | .done m1 =>
    match m1.modal with
    | none => .raised .TypeError m1
    | some _ =>
      ModalEngine.animateBlueprint
        { m1 with modal := some true, bodyOverflow := "hidden", isOpen := true }

/-- `close()`. -/
def ModalEngine.close (m : ModalEngine) : Opened :=
  match m.modal with
  | none => .raised .TypeError m
  | some _ => .done { m with modal := some false, bodyOverflow := "", isOpen := false }

/-! ## Sequences of calls -/

/-- A call on the cart controller. -/
inductive Op
  | add (productId : String)
  | remove (productId : String)
  | updateQty (id : String) (delta : Int)
  deriving DecidableEq

/-- One call. -/
def CartController.step (c : CartController) : Op → CartController
  | .add productId => c.add productId
  | .remove productId => c.remove productId
  | .updateQty id delta => c.updateQty id delta

/-- A finite sequence of calls, in order. -/
def CartController.run (c : CartController) (ops : List Op) : CartController :=
  ops.foldl CartController.step c

/-- A page without any of the four cart handles. -/
def headless : UI := ⟨none, none, none, none⟩

/-- A `localStorage` whose `imex_lang` is a tag the `i18n` table does not have. -/
def frenchStorage : Storage := { imex_lang := some "fr", imex_cart := none }

/-- The controller of a fresh headless page: nothing stored, no item. -/
def emptyCart : CartController :=
  { core := ImexEngine.constructor { imex_lang := none, imex_cart := none } []
    items := []
    ui := headless }

/-- Scenario A of the spec: `add("PX-001")` on the empty cart. -/
def scenarioA : CartController := emptyCart.add "PX-001"

/-- Scenario B of the spec: `add("PX-001")` again. -/
def scenarioB : CartController := scenarioA.add "PX-001"

/-- Scenario C of the spec: then `updateQty("PX-001", -5)`. -/
def scenarioC : CartController := scenarioB.updateQty "PX-001" (-5)

/-- Scenario D of the spec: then `remove("PX-001")`. -/
def scenarioD : CartController := scenarioC.remove "PX-001"

/-- The engine of a fresh page without `[data-t]` elements. -/
def freshEngine : ImexEngine :=
  ImexEngine.constructor { imex_lang := none, imex_cart := none } []

/-- The modal engine of a page that has both modal elements and `gsap`. -/
def modalPage : ModalEngine :=
  ModalEngine.constructor (some false) (some ModalContent.markup) "" true

/-- The modal engine of a page that has the `tech-modal` element and `gsap`, but no
`modal-content-mount` element. -/
def mountlessPage : ModalEngine :=
  ModalEngine.constructor (some false) none "" true

theorem modifyFirst_of_forall_not (p : LineItem → Bool) (f : LineItem → LineItem)
    (l : List LineItem) (h : ∀ x ∈ l, p x = false) : modifyFirst p f l = l := by
  induction l with
  | nil => rfl
  | cons x xs ih =>
    have hx : p x = false := h x (List.mem_cons_self _ _)
    have hxs : ∀ y ∈ xs, p y = false := fun y hy => h y (List.mem_cons_of_mem _ hy)
    simp [modifyFirst, hx, ih hxs]

theorem modifyFirst_map_id (p : LineItem → Bool) (f : LineItem → LineItem)
    (hf : ∀ x, (f x).id = x.id) (l : List LineItem) :
    (modifyFirst p f l).map (fun i => i.id) = l.map (fun i => i.id) := by
  induction l with
  | nil => rfl
  | cons a as ih =>
    by_cases ha : p a = true
    · simp [modifyFirst, ha, hf]
    · simp [modifyFirst, ha, ih]

namespace CartController

theorem calculateTotals_items (c : CartController) : c.calculateTotals.items = c.items := rfl
theorem updateUI_items (c : CartController) : c.updateUI.items = c.items := rfl
theorem sync_items (c : CartController) : c.sync.items = c.items := rfl
theorem renderItems_items (c : CartController) : c.renderItems.items = c.items := by
  unfold renderItems
  split
  · rfl
  · split <;> rfl

theorem add_items_eq (c : CartController) (productId : String) :
    (c.add productId).items =
      match c.items.find? (fun item => item.id == productId) with
      | some _ =>
        modifyFirst (fun item => item.id == productId)
          (fun existing => { existing with qty := existing.qty + 1 }) c.items
      | none =>
        c.items ++
          [{ id := productId
             name := (getProductMock productId).name
             price := (getProductMock productId).price
             weightPerUnit := (getProductMock productId).weight
             qty := 1
             category := (getProductMock productId).category }] := by
  simp [add, renderItems_items, sync_items]

theorem remove_items_eq (c : CartController) (productId : String) :
    (c.remove productId).items = c.items.filter (fun item => item.id != productId) := by
  simp [remove, renderItems_items, sync_items]

theorem updateQty_items_eq (c : CartController) (id : String) (delta : Int) :
    (c.updateQty id delta).items =
      modifyFirst (fun i => i.id == id)
        (fun item => { item with qty := max 1 (item.qty + delta) }) c.items := by
  unfold updateQty
  split
  · simp [renderItems_items, sync_items]
  · rename_i h
    rw [modifyFirst_of_forall_not]
    intro x hx
    have := List.find?_eq_none.mp h x hx
    simpa using this

end CartController

end Imex

namespace Imex

/-! ## Invariants along sequences of calls -/

theorem run_invariant (P : List LineItem → Prop)
    (hstep : ∀ (c : CartController) (op : Op), P c.items → P (c.step op).items)
    (ops : List Op) : ∀ c : CartController, P c.items → P (c.run ops).items := by
  induction ops with
  | nil => intro c h; exact h
  | cons op ops ih =>
    intro c h
    exact ih (c.step op) (hstep c op h)

theorem step_ids_nodup (c : CartController) (op : Op)
    (h : (c.items.map (fun i => i.id)).Nodup) : ((c.step op).items.map (fun i => i.id)).Nodup := by
  cases op with
  | add productId =>
    show ((c.add productId).items.map (fun i => i.id)).Nodup
    rw [CartController.add_items_eq]
    split
    · rw [modifyFirst_map_id _ (fun existing => { existing with qty := existing.qty + 1 })
        (fun _ => rfl)]
      exact h
    · rename_i hnone
      rw [List.map_append, List.nodup_append]
      refine ⟨h, by simp, ?_⟩
      intro a ha hb
      simp only [List.map_cons, List.map_nil, List.mem_singleton] at hb
      subst hb
      obtain ⟨x, hx, hxa⟩ := List.mem_map.mp ha
      have := List.find?_eq_none.mp hnone x hx
      simp at this
      exact this hxa
  | remove productId =>
    show ((c.remove productId).items.map (fun i => i.id)).Nodup
    rw [CartController.remove_items_eq]
    exact h.sublist ((List.filter_sublist c.items).map _)
  | updateQty id delta =>
    show ((c.updateQty id delta).items.map (fun i => i.id)).Nodup
    rw [CartController.updateQty_items_eq,
      modifyFirst_map_id _ (fun item => { item with qty := max 1 (item.qty + delta) })
        (fun _ => rfl)]
    exact h

/-! ## The claims -/

/-- C2: starting from the empty cart, after every finite sequence of `add`, `remove` and
`updateQty` calls no two items share an id. -/
theorem ids_nodup_from_empty (c : CartController) (ops : List Op) :
    ((CartController.run { c with items := [] } ops).items.map (fun i => i.id)).Nodup :=
  run_invariant (fun items => (items.map (fun i => i.id)).Nodup) step_ids_nodup ops
    { c with items := [] } List.nodup_nil

/-- C5: `remove(productId)` keeps exactly the items whose id differs from `productId`, in
their order; after it no item has that id; and the items are unchanged unless some item had
that id.  The call is total: nothing in it raises.  In scenario D the cart is empty. -/
theorem remove_filters (c : CartController) (productId : String) :
    (c.remove productId).items = c.items.filter (fun item => decide (item.id ≠ productId)) ∧
    (∀ x ∈ (c.remove productId).items, x.id ≠ productId) ∧
    ((c.remove productId).items = c.items ∨ ∃ x ∈ c.items, x.id = productId) ∧
    scenarioD.items = [] := by
  have hfilter : (c.remove productId).items =
      c.items.filter (fun item => decide (item.id ≠ productId)) := by
    rw [CartController.remove_items_eq]
    congr 1
    funext item
    by_cases hid : item.id = productId <;> simp [bne, hid]
  refine ⟨hfilter, ?_, ?_, rfl⟩
  · intro x hx
    rw [hfilter] at hx
    simpa using (List.mem_filter.mp hx).2
  · by_cases h : ∃ x ∈ c.items, x.id = productId
    · exact Or.inr h
    · left
      rw [hfilter, List.filter_eq_self]
      intro x hx
      have : x.id ≠ productId := fun hxe => h ⟨x, hx, hxe⟩
      simpa using this

end Imex

namespace Imex

/-! ## Totals -/

namespace JSNum

end JSNum

namespace CartController

theorem sync_totals (c : CartController) :
    c.sync.ui.totalPrice =
        c.ui.totalPrice.map (fun _ => Content.price (totals c.items).1 c.core.config.currency) ∧
      c.sync.ui.totalWeight = c.ui.totalWeight.map (fun _ => Content.weight (totals c.items).2) :=
  ⟨rfl, rfl⟩

end CartController

end Imex

namespace Imex

end Imex

namespace Imex

/-! ## Persistence -/

end Imex

namespace Imex

/-- C8: the constructor does not guard its `JSON.parse`: when the text under `imex_cart` is
not JSON, `SyntaxError` is raised out of `new CartController` instead of an empty cart being
built; and a stored value that parses to a truthy non-array (here the number 5) raises
`TypeError`. -/
theorem constructor_raises_on_corrupt_store (raw : String) (parent : ImexEngine) (ui : UI) :
    CartController.constructor
        { parent with storage := { parent.storage with imex_cart := some (.malformed raw) } } ui =
      Constructed.raised JSError.SyntaxError ∧
    CartController.constructor
        { parent with storage := { parent.storage with imex_cart := some (.json (.num 5)) } } ui =
      Constructed.raised JSError.TypeError := by
  constructor
  · rfl
  · simp [CartController.constructor, JSON.parse, JSON.truthy]

/-- C9: for the id `constructor`, which is not in the catalog, `db[id]` is the member
inherited from `Object.prototype`, so `getProductMock` does not return the sentinel: the
record reads `name = "Object"` with `price` and `weight` `undefined`, and the item `add`
appends has `price` and `weightPerUnit` `undefined`, not 0, which makes both totals `NaN`. -/
theorem getProductMock_inherited_member (c : CartController) :
    getProductMock "constructor" = ⟨some "Object", none, none, none⟩ ∧
    getProductMock "constructor" ≠ sentinel ∧
    (CartController.add { c with items := [] } "constructor").items =
      [⟨"constructor", some "Object", none, none, 1, none⟩] ∧
    CartController.totals (CartController.add { c with items := [] } "constructor").items =
      (JSNum.nan, JSNum.nan) := by
  refine ⟨rfl, by decide, ?_, ?_⟩
  · rw [CartController.add_items_eq]
    rfl
  · rw [CartController.add_items_eq]
    rfl

/-- C10: with `imex_lang` holding the unsupported tag `fr` and one `[data-t]` element on the
page, the constructor keeps `fr` as `config.lang` instead of the default `en`, and
`initLocalization` raises `TypeError` in `updateDOMTranslations`. -/
theorem unrecognized_lang_kept :
    (ImexEngine.constructor frenchStorage ["nav_home"]).config.lang = "fr" ∧
    (ImexEngine.constructor frenchStorage ["nav_home"]).config.lang ≠ "en" ∧
    (ImexEngine.constructor frenchStorage ["nav_home"]).initLocalization =
      Translation.raised JSError.TypeError := by
  refine ⟨rfl, by decide, rfl⟩

end Imex

namespace Imex

/-! ## Language selection -/

theorem setLang_of_not_truthy (e : ImexEngine) (langCode : String)
    (h : ImexEngine.i18nTruthy langCode = false) : e.setLang langCode = Translation.done e := by
  simp [ImexEngine.setLang, h]

theorem updateDOMTranslations_storage (e e1 : ImexEngine)
    (h : e.updateDOMTranslations = Translation.done e1) :
    e1.storage = e.storage ∧ e1.config = e.config := by
  unfold ImexEngine.updateDOMTranslations at h
  split at h
  · cases h
    exact ⟨rfl, rfl⟩
  · split at h
    · cases h
      exact ⟨rfl, rfl⟩
    · split at h <;> cases h

theorem setLang_cart_untouched (e e1 : ImexEngine) (langCode : String)
    (h : e.setLang langCode = Translation.done e1) :
    e1.storage.imex_cart = e.storage.imex_cart := by
  unfold ImexEngine.setLang at h
  split at h
  · split at h
    · rename_i e2 hupd
      cases h
      have := (updateDOMTranslations_storage _ _ hupd).1
      show e2.storage.imex_cart = _
      rw [this]
      rfl
    · cases h
    · cases h
  · cases h
    rfl

/-- C11: the guard `this.i18n[langCode]` of `setLang` is truthy for `constructor`, a member
the `i18n` literal inherits from `Object.prototype`, so `setLang("constructor")` does not
leave the language alone: `config.lang` and the persisted `imex_lang` both become
`constructor`, a tag outside en/ru/uz.  The two assignments come before
`updateDOMTranslations()`, so this holds on every page; on a page without `[data-t]`
elements the call completes, with the persisted `imex_cart` as it was. -/
theorem setLang_accepts_inherited_member :
    "constructor" ∉ ["en", "ru", "uz"] ∧
    ImexEngine.i18nTruthy "constructor" = true ∧
    (∀ e : ImexEngine,
      (e.assignLang "constructor").config.lang = "constructor" ∧
        (e.assignLang "constructor").storage.imex_lang = some "constructor") ∧
    ∃ e, freshEngine.setLang "constructor" = Translation.done e ∧
      e.config.lang = "constructor" ∧ e.storage.imex_lang = some "constructor" ∧
      freshEngine.config.lang = "en" ∧ freshEngine.storage.imex_lang = none ∧
      e.storage.imex_cart = freshEngine.storage.imex_cart :=
  ⟨by decide, by decide, fun _ => ⟨rfl, rfl⟩, _, rfl, rfl, rfl, rfl, rfl, rfl⟩

/-! ## Rendering -/

namespace CartController

theorem renderItems_core (c : CartController) : c.renderItems.core = c.core := by
  unfold renderItems
  split
  · rfl
  · split <;> rfl

theorem step_core_items (c : CartController) (ui : UI) (op : Op) :
    (CartController.step { c with ui := ui } op).items = (c.step op).items ∧
      (CartController.step { c with ui := ui } op).core = (c.step op).core := by
  cases op with
  | add productId =>
    constructor
    · simp only [step, add_items_eq]
    · simp only [step, add, renderItems_core]
      rfl
  | remove productId =>
    constructor
    · simp only [step, remove_items_eq]
    · simp only [step, remove, renderItems_core]
      rfl
  | updateQty id delta =>
    constructor
    · simp only [step, updateQty_items_eq]
    · simp only [step, updateQty]
      cases hfind : c.items.find? (fun i => i.id == id) with
      | none => rfl
      | some found =>
        simp only [renderItems_core]
        rfl

theorem step_headless (c : CartController) (op : Op) :
    (CartController.step { c with ui := headless } op).ui = headless := by
  cases op with
  | add productId => rfl
  | remove productId => rfl
  | updateQty id delta =>
    simp only [step, updateQty]
    cases hfind : c.items.find? (fun i => i.id == id) with
    | none => rfl
    | some found => rfl

end CartController

/-- C12: `updateUI`, `calculateTotals` and `renderItems` never change the item list; on a
page where the counter, mount, totalPrice and totalWeight handles are all absent each of the
three returns the controller exactly as it was (total functions: nothing is raised, nothing
is written); and `add`, `remove` and `updateQty` on that page leave the handles absent and
produce the same items and the same persisted `imex_cart` value, indeed the same engine and
page state, as on a page with any handles. -/
theorem rendering_is_pure (c : CartController) (ui : UI) (op : Op) :
    (c.updateUI.items = c.items ∧ c.calculateTotals.items = c.items ∧
      c.renderItems.items = c.items) ∧
    (CartController.updateUI { c with ui := headless } = { c with ui := headless } ∧
      CartController.calculateTotals { c with ui := headless } = { c with ui := headless } ∧
      CartController.renderItems { c with ui := headless } = { c with ui := headless }) ∧
    (CartController.step { c with ui := headless } op).ui = headless ∧
    (CartController.step { c with ui := headless } op).items =
      (CartController.step { c with ui := ui } op).items ∧
    (CartController.step { c with ui := headless } op).core.storage.imex_cart =
      (CartController.step { c with ui := ui } op).core.storage.imex_cart ∧
    (CartController.step { c with ui := headless } op).core =
      (CartController.step { c with ui := ui } op).core := by
  have h1 := CartController.step_core_items c headless op
  have h2 := CartController.step_core_items c ui op
  refine ⟨⟨rfl, rfl, CartController.renderItems_items c⟩, ⟨rfl, rfl, rfl⟩,
    CartController.step_headless c op, ?_, ?_, ?_⟩
  · rw [h1.1, h2.1]
  · rw [h1.2, h2.2]
  · rw [h1.2, h2.2]

/-! ## The specification modal -/

theorem getProductMock_category_none (productId : String)
    (h : productId ∉ ["PX-001", "BM-442", "VL-099"]) :
    (getProductMock productId).category = none := by
  simp only [List.mem_cons, List.mem_singleton, List.not_mem_nil, or_false, not_or] at h
  obtain ⟨h1, h2, h3⟩ := h
  have b1 : (productId == "PX-001") = false := beq_eq_false_iff_ne.mpr h1
  have b2 : (productId == "BM-442") = false := beq_eq_false_iff_ne.mpr h2
  have b3 : (productId == "VL-099") = false := beq_eq_false_iff_ne.mpr h3
  have hdb : db.lookup productId = none := by
    simp [db, List.lookup, b1, b2, b3]
  simp only [getProductMock, hdb]
  cases objectPrototype.lookup productId <;> rfl

/-- C13, counterexample: on a page without the `modal-content-mount` element, `open` of the
catalog identifier `PX-001` raises `TypeError` and `isOpen` stays false. -/
theorem open_catalog_id_without_mount :
    ModalEngine.open mountlessPage "PX-001" = Opened.raised JSError.TypeError mountlessPage ∧
      mountlessPage.isOpen = false := by
  decide

/-- C13, amended: for every product identifier that is not in the catalog, `open` raises
`TypeError` inside `renderContent`, with the state as it was before the call: the mount
content is not written, the `active` class is not added and `isOpen` is not set.  For the
three catalog identifiers, on a page that has the `tech-modal` and `modal-content-mount`
elements and has `gsap` loaded, it does not raise, writes the mount, adds the `active` class
and sets `isOpen` to true. -/
theorem open_outcome (m : ModalEngine) (productId : String) :
    (productId ∉ ["PX-001", "BM-442", "VL-099"] →
      ModalEngine.open m productId = Opened.raised JSError.TypeError m ∧
        ModalEngine.renderContent m (getProductMock productId) =
          Opened.raised JSError.TypeError m) ∧
    (productId ∈ ["PX-001", "BM-442", "VL-099"] →
      m.mount.isSome = true → m.modal.isSome = true → m.gsap = true →
      ∃ m1, ModalEngine.open m productId = Opened.done m1 ∧ m1.isOpen = true ∧
        m1.modal = some true ∧ m1.mount.isSome = true) := by
  constructor
  · intro h
    have hcat := getProductMock_category_none productId h
    have hrender : ModalEngine.renderContent m (getProductMock productId) =
        Opened.raised JSError.TypeError m := by
      simp [ModalEngine.renderContent, hcat]
    exact ⟨by simp [ModalEngine.open, hrender], hrender⟩
  · intro hid hmount hmodal hgsap
    obtain ⟨mountContent, hmc⟩ := Option.isSome_iff_exists.mp hmount
    obtain ⟨modalClass, hml⟩ := Option.isSome_iff_exists.mp hmodal
    simp only [List.mem_cons, List.mem_singleton, List.not_mem_nil, or_false] at hid
    rcases hid with rfl | rfl | rfl
    · have hp : getProductMock "PX-001" =
          ⟨some "Seamless Pipe ASTM", some 1450000, some 12.5, some "pipes"⟩ := rfl
      simp [ModalEngine.open, ModalEngine.renderContent, ModalEngine.animateBlueprint, hp, hmc,
        hml, hgsap]
    · have hp : getProductMock "BM-442" =
          ⟨some "H-Beam S355JR", some 9800000, some 45.0, some "structural"⟩ := rfl
      simp [ModalEngine.open, ModalEngine.renderContent, ModalEngine.animateBlueprint, hp, hmc,
        hml, hgsap]
    · have hp : getProductMock "VL-099" =
          ⟨some "Ball Valve PN40", some 3250000, some 8.2, some "tech"⟩ := rfl
      simp [ModalEngine.open, ModalEngine.renderContent, ModalEngine.animateBlueprint, hp, hmc,
        hml, hgsap]

/-- C13, witness: on a page with both modal elements and `gsap`, `open("NON-EXISTENT")`
raises and leaves the state, and `open("PX-001")` completes with `isOpen` true. -/
theorem open_outcome_witness :
    ("NON-EXISTENT" ∉ ["PX-001", "BM-442", "VL-099"] ∧
      ModalEngine.open modalPage "NON-EXISTENT" = Opened.raised JSError.TypeError modalPage ∧
      ModalEngine.renderContent modalPage (getProductMock "NON-EXISTENT") =
        Opened.raised JSError.TypeError modalPage) ∧
    ("PX-001" ∈ ["PX-001", "BM-442", "VL-099"] ∧ modalPage.mount.isSome = true ∧
      modalPage.modal.isSome = true ∧ modalPage.gsap = true ∧
      ∃ m1, ModalEngine.open modalPage "PX-001" = Opened.done m1 ∧ m1.isOpen = true ∧
        m1.modal = some true ∧ m1.mount.isSome = true) :=
  ⟨⟨by decide, (open_outcome modalPage "NON-EXISTENT").1 (by decide)⟩,
    ⟨by decide, rfl, rfl, rfl, (open_outcome modalPage "PX-001").2 (by decide) rfl rfl rfl⟩⟩

end Imex
